import Mathlib

/-!
Verification development for the image-generator Flask service (`src/app.py`)
and its job-poller component described in the design document.

The first part embeds the code of `src/app.py`: the GUID regular expression,
the request-validation and configuration logic of the `/generate` route, the
`AppMetrics` counters with the `monitor_performance` decorator, and the
`/health` route.  The second part models the Job Poller component, whose
implementation is not part of `src/`, from the design document.
-/

namespace App

/-! ### GUID regular expression (src/app.py lines 19-22)

`GUID_REGEX = ^[0-9a-f]{8}-[0-9a-f]{4}-[1-5][0-9a-f]{3}-[89ab][0-9a-f]{3}-[0-9a-f]{12}$`
compiled with `re.IGNORECASE`, used via `GUID_REGEX.match` (anchored on both
sides by the pattern itself). -/

/-- A hexadecimal digit, case-insensitive (the regex class `[0-9a-f]` under
`re.IGNORECASE`). -/
def isHexChar (c : Char) : Bool :=
  (decide ('0' ≤ c) && decide (c ≤ '9')) ||
  (decide ('a' ≤ c) && decide (c ≤ 'f')) ||
  (decide ('A' ≤ c) && decide (c ≤ 'F'))

/-- The regex class `[1-5]` (version nibble). -/
def isVersionChar (c : Char) : Bool :=
  decide ('1' ≤ c) && decide (c ≤ '5')

/-- The regex class `[89ab]` under `re.IGNORECASE` (variant nibble). -/
def isVariantChar (c : Char) : Bool :=
  c = '8' || c = '9' || c = 'a' || c = 'b' || c = 'A' || c = 'B'

/-- Consume exactly `n` characters satisfying `p`; return the rest, or
`none` if a character fails `p` or the input runs out. -/
def takeRun : Nat → (Char → Bool) → List Char → Option (List Char)
  | 0, _, cs => some cs
  | _ + 1, _, [] => none
  | n + 1, p, c :: cs => if p c then takeRun n p cs else none

/-- Consume a literal dash. -/
def expectDash : List Char → Option (List Char)
  | '-' :: cs => some cs
  | _ => none

/-- The anchored match `GUID_REGEX.match(s)` as a boolean: 8 hex, dash, 4 hex, dash, a version
digit `[1-5]` and 3 hex, dash, a variant digit `[89ab]` and 3 hex, dash,
12 hex; all case-insensitive.  The final `$` of the pattern follows the
Python semantics of `re` without `re.MULTILINE`: it matches at the end of
the string or just before a newline that ends the string, so a single
trailing newline after the last hex group is also accepted. -/
def guidMatch (s : String) : Bool :=
  (do
    let cs ← takeRun 8 isHexChar s.data
    let cs ← expectDash cs
    let cs ← takeRun 4 isHexChar cs
    let cs ← expectDash cs
    let cs ← takeRun 1 isVersionChar cs
    let cs ← takeRun 3 isHexChar cs
    let cs ← expectDash cs
    let cs ← takeRun 1 isVariantChar cs
    let cs ← takeRun 3 isHexChar cs
    let cs ← expectDash cs
    let cs ← takeRun 12 isHexChar cs
    if cs = [] ∨ cs = ['\n'] then some () else none).isSome

/-- The canonical GUID textual pattern as the spec words it: five groups of
8, 4, 4, 4 and 12 hexadecimal digits separated by dashes, with no version or
variant restriction.  This definition follows the spec, for comparison with
`guidMatch`, which embeds the code. -/
def canonicalGuidPattern (s : String) : Bool :=
  (do
    let cs ← takeRun 8 isHexChar s.data
    let cs ← expectDash cs
    let cs ← takeRun 4 isHexChar cs
    let cs ← expectDash cs
    let cs ← takeRun 4 isHexChar cs
    let cs ← expectDash cs
    let cs ← takeRun 4 isHexChar cs
    let cs ← expectDash cs
    let cs ← takeRun 12 isHexChar cs
    if cs.isEmpty then some () else none).isSome

/-! ### Environment and configuration (src/app.py lines 161-170) -/

/-- The process environment, restricted to the variable the code reads.
`none` models an unset variable; `os.getenv` then returns `None`. -/
structure Env where
  azureStorageKey : Option String
deriving DecidableEq, Repr

/-- Python truthiness of an `os.getenv` result: `None` and the empty string
are falsy. -/
def truthyStr : Option String → Bool
  | none => false
  | some s => !s.isEmpty

/-- The function `check_api_configuration` (src/app.py lines 161-166): returns the list of
missing configuration names; `AZURE_STORAGE_KEY` is reported missing when
`os.getenv` returns a falsy value. -/
def check_api_configuration (env : Env) : List String :=
  if truthyStr env.azureStorageKey then [] else ["AZURE_STORAGE_KEY"]

/-! ### The /generate route (src/app.py lines 177-216) -/

/-- The JSON body of a `/generate` request, with each field optional as in
`data.get(...)`. -/
structure GenRequestData where
  request_id : Option String
  prompt : Option String
  width : Option Int
  height : Option Int
deriving DecidableEq, Repr

/-- A Python exception escaping the route handler.  `typeError` is the
`TypeError` raised by slicing `None` (as in `prompt[:100]` when the prompt is
absent). -/
inductive PyError where
  | typeError
deriving DecidableEq, Repr

/-- The JSON responses the `/generate` route can return. -/
inductive GenerateResult where
  /-- A 400 envelope `{status: "error", message: ...}`. -/
  | validationError (message : String)
  /-- The 503 envelope of lines 200-207, carrying the missing-config list. -/
  | configMissing (missing : List String) (request_id : String)
  /-- The 200 stub response of lines 210-216. -/
  | wouldGenerate (request_id prompt : String) (width height : Int)
deriving DecidableEq, Repr

/-- The HTTP status code attached to each `/generate` response. -/
def httpCode : GenerateResult → Nat
  | .validationError _ => 400
  | .configMissing _ _ => 503
  | .wouldGenerate _ _ _ _ => 200

/-- The `status` field of each `/generate` response body. -/
def bodyStatus : GenerateResult → String
  | .validationError _ => "error"
  | .configMissing _ _ => "error"
  | .wouldGenerate _ _ _ _ => "info"

/-- The route handler `generate_image` (src/app.py lines 180-216).  The second component of the
result is the list of outbound network calls made; the handler in `src/app.py`
performs none (generation is stubbed at line 209).  The `logger.info` call at
line 187 slices `prompt[:100]` before validation, so a request whose body has
no `prompt` raises `TypeError` instead of reaching the 400 branch. -/
def generate_image (data : GenRequestData) (env : Env) :
    Except PyError (GenerateResult × List String) :=
  let width := data.width.getD 512
  let height := data.height.getD 512
  match data.request_id, data.prompt with
  | _, none => .error .typeError
  | none, some _ => .ok (.validationError "Missing request_id or prompt", [])
  | some rid, some prompt =>
    if rid = "" ∨ prompt = "" then
      .ok (.validationError "Missing request_id or prompt", [])
    else if guidMatch rid = false then
      .ok (.validationError "request_id must be a valid GUID", [])
    else if check_api_configuration env = [] then
      .ok (.wouldGenerate rid prompt width height, [])
    else
      .ok (.configMissing (check_api_configuration env) rid, [])

/-! ### Metrics (src/app.py lines 40-90) and monitor_performance (97-129) -/

/-- The fields of `AppMetrics` the generation counters live in
(src/app.py lines 40-48): `response_times` is a `deque(maxlen=100)`. -/
structure AppMetrics where
  successful_generations : Nat
  failed_generations : Nat
  response_times : List Nat
  error_count : List (String × Nat)
deriving DecidableEq, Repr

/-- Appending to a `deque(maxlen=100)`: push right, drop from the left beyond
100 entries. -/
def pushResponseTime (ts : List Nat) (d : Nat) : List Nat :=
  let ts := ts ++ [d]
  ts.drop (ts.length - 100)

/-- The method `AppMetrics.record_response_time` (src/app.py lines 55-60). -/
def record_response_time (m : AppMetrics) (duration : Nat) (success : Bool) :
    AppMetrics :=
  { m with
    response_times := pushResponseTime m.response_times duration
    successful_generations :=
      if success then m.successful_generations + 1 else m.successful_generations
    failed_generations :=
      if success then m.failed_generations else m.failed_generations + 1 }

/-- Increment the counter for a key in `defaultdict(int)` fashion. -/
def bumpCount : List (String × Nat) → String → List (String × Nat)
  | [], k => [(k, 1)]
  | (k₀, n) :: rest, k =>
    if k₀ = k then (k₀, n + 1) :: rest else (k₀, n) :: bumpCount rest k

/-- The method `AppMetrics.record_error` (src/app.py lines 62-64), restricted to the
`error_count` update. -/
def record_error (m : AppMetrics) (error_type : String) : AppMetrics :=
  { m with error_count := bumpCount m.error_count error_type }

/-- The name of a Python exception class, as `type(e).__name__` yields it. -/
def pyErrorName : PyError → String
  | .typeError => "TypeError"

/-- The `monitor_performance` wrapper (src/app.py lines 97-129) around one
handler invocation: given the handler outcome (a returned response or a
raised exception), update the metrics and pass the outcome through.  A
returned response records a successful generation; a raised exception records
a failed generation and the error, and is re-raised. -/
def monitor_performance {α : Type} (m : AppMetrics) (duration : Nat)
    (result : Except PyError α) : Except PyError α × AppMetrics :=
  match result with
  | .ok r => (.ok r, record_response_time m duration true)
  | .error e =>
    (.error e, record_error (record_response_time m duration false) (pyErrorName e))

/-! ### The /health route (src/app.py lines 261-286) -/

/-- The parts of the `/health` response body the claims concern, together
with the HTTP status code. -/
structure HealthResponse where
  code : Nat
  status : String
  api_configured : Bool
  missing_config : List String
deriving DecidableEq, Repr

/-- The route handler `health_check` (src/app.py lines 261-286): status `"healthy"` with code
200 when `check_api_configuration` reports nothing missing, otherwise
`"degraded"` with code 503. -/
def health_check (env : Env) : HealthResponse :=
  let missing := check_api_configuration env
  { code := if missing = [] then 200 else 503
    status := if missing = [] then "healthy" else "degraded"
    api_configured := missing.length = 0
    missing_config := missing }

end App

namespace Poller

/-!
### The Job Poller

The Job Poller implementation is not among the source files under `src/`
(only the stub variant of the service is); the definitions below are
modelled from the design document (sections 4.1 and 7).
-/

/-- Modelled from the spec: the job status enum
`{SUBMITTED, COMPLETED, FAILED, CANCELLED}`; `SUBMITTED` (and anything that
is not `COMPLETED`, `FAILED` or `CANCELLED`) is non-terminal. -/
inductive JobStatus where
  | SUBMITTED
  | COMPLETED
  | FAILED
  | CANCELLED
deriving DecidableEq, Repr

/-- A status is terminal when it is `COMPLETED`, `FAILED` or `CANCELLED`. -/
def JobStatus.isTerminal : JobStatus → Bool
  | .COMPLETED => true
  | .FAILED => true
  | .CANCELLED => true
  | .SUBMITTED => false

/-- Modelled from the spec: the shapes the `output` field of the terminal payload
may take — a structured object possibly holding an image-url-bearing key, a
bare string, an ordered sequence of strings, or some other shape. -/
inductive OutputField where
  | obj (image_url : Option String)
  | str (s : String)
  | strList (xs : List String)
  | otherShape
deriving DecidableEq, Repr

/-- Modelled from the spec: one response of the job-status endpoint
`GET {base}/status/{id}`, carrying `{status, output?, error?}`. -/
structure StatusResponse where
  status : JobStatus
  output : Option OutputField
  error : Option String
deriving DecidableEq, Repr

/-- Modelled from the spec: the generation-pipeline failures of the error
taxonomy that the poll loop can raise. -/
inductive PollError where
  | timeoutError
  | generationFailedError (message : String)
  | outputFormatError
deriving DecidableEq, Repr

/-- Modelled from the spec: the fixed timeout ceiling of 120 time units. -/
def poll_timeout : Nat := 120

/-- Modelled from the spec: the fixed interval of 2 time units between
polls. -/
def poll_interval : Nat := 2

/-- Modelled from the spec: the message of a `GenerationFailedError`, carrying
the upstream error detail if present. -/
def failMessage (detail : Option String) : String :=
  match detail with
  | some d => "Image generation failed: " ++ d
  | none => "Image generation failed"

/-- Modelled from the spec: output extraction from the terminal payload.  A
structured object yields the value of its image-url-bearing key, a bare
string is the image reference itself, a non-empty ordered sequence of strings
yields its first element; any other shape, or an empty or missing result,
fails with `OutputFormatError`. -/
def extract_output : Option OutputField → Except PollError String
  | some (.obj (some url)) => .ok url
  | some (.obj none) => .error .outputFormatError
  | some (.str s) => .ok s
  | some (.strList (x :: _)) => .ok x
  | some (.strList []) => .error .outputFormatError
  | some .otherShape => .error .outputFormatError
  | none => .error .outputFormatError

/-- Modelled from the spec: the poll loop.  `api` gives the status-endpoint
response as a function of the elapsed time at which the poll is made;
`elapsed` is the wall-clock time since submission.  Each iteration first
fails with `TimeoutError` if the elapsed time exceeds the 120-unit ceiling
(no cancellation call is made), then polls once: `COMPLETED` exits to output
extraction, `FAILED` and `CANCELLED` fail with `GenerationFailedError`
carrying the upstream detail, and any other status sleeps `poll_interval`
units and continues.  The result is paired with the elapsed time at which the
loop stopped. -/
def poll_job (api : Nat → StatusResponse) (elapsed : Nat) :
    Except PollError String × Nat :=
  if poll_timeout < elapsed then
    (.error .timeoutError, elapsed)
  else
    match (api elapsed).status with
    | .COMPLETED => (extract_output (api elapsed).output, elapsed)
    | .FAILED =>
      (.error (.generationFailedError (failMessage (api elapsed).error)), elapsed)
    | .CANCELLED =>
      (.error (.generationFailedError (failMessage (api elapsed).error)), elapsed)
    | .SUBMITTED => poll_job api (elapsed + poll_interval)
termination_by poll_timeout + 1 - elapsed
decreasing_by
  simp_wf
  simp only [poll_timeout, poll_interval] at *
  omega

/-- Modelled from the spec: the post-success handoff.  The stored file path
and request id are handed to the Blob Uploader; a returned public URL becomes
the image URL of the response, and an upload failure is logged but does not
fail the overall request — the locally stored image URL is used instead. -/
inductive UploadError where
  | uploadFailed (message : String)
deriving DecidableEq, Repr

/-- The overall response after a successful generation and store. -/
structure FinalResponse where
  status : String
  request_id : String
  image_url : String
deriving DecidableEq, Repr

/-- Modelled from the spec: build the overall response from the locally
stored image URL and the Blob Uploader outcome. -/
def finalize_response (request_id localUrl : String)
    (upload : Except UploadError String) : FinalResponse :=
  match upload with
  | .ok blobUrl => { status := "success", request_id := request_id, image_url := blobUrl }
  | .error _ => { status := "success", request_id := request_id, image_url := localUrl }

end Poller

/-!
## Claims
-/

open App Poller

/-- Helper: against an API that always reports `SUBMITTED`, the poll loop
started at any elapsed time that can reach `poll_timeout + poll_interval` in
steps of `poll_interval` times out there. -/
theorem poll_job_submitted_times_out (api : Nat → StatusResponse)
    (hs : ∀ t, (api t).status = .SUBMITTED) :
    ∀ n e, e + poll_interval * n = poll_timeout + poll_interval →
      poll_job api e = (.error .timeoutError, poll_timeout + poll_interval) := by
  intro n
  induction n with
  | zero =>
    intro e he
    have he2 : e = poll_timeout + poll_interval := by
      simp only [poll_timeout, poll_interval] at he ⊢
      omega
    subst he2
    rw [poll_job]
    simp [poll_timeout, poll_interval]
  | succ k ih =>
    intro e he
    rw [poll_job]
    have hle : ¬ poll_timeout < e := by
      simp only [poll_timeout, poll_interval] at he ⊢
      omega
    rw [if_neg hle, hs e]
    exact ih (e + poll_interval) (by simp only [poll_interval] at he ⊢; omega)

/-- C1 counterexample: the all-zero GUID matches the canonical 8-4-4-4-12
hexadecimal pattern of the spec, yet `GUID_REGEX` rejects it (its version
nibble is not in `[1-5]`), so a well-formed request carrying it is answered
with the 400 GUID-validation envelope rather than accepted. -/
theorem C1_canonical_guid_rejected :
    canonicalGuidPattern "00000000-0000-0000-0000-000000000000" = true ∧
    guidMatch "00000000-0000-0000-0000-000000000000" = false ∧
    generate_image
      ⟨some "00000000-0000-0000-0000-000000000000", some "a cat", none, none⟩
      ⟨some "key"⟩ =
      .ok (.validationError "request_id must be a valid GUID", []) ∧
    httpCode (.validationError "request_id must be a valid GUID") = 400 :=
  ⟨rfl, rfl, rfl, rfl⟩

/-- C1 amended: validation accepts a request_id exactly when it matches the
compiled `GUID_REGEX` (8-4-4-4-12 hexadecimal groups further constrained to
version digit 1-5 and variant digit 8/9/a/b, case-insensitively); every
other request_id is rejected with an HTTP 400 envelope, with no outbound
call made. -/
theorem C1_guid_validation (rid p : String) (env : Env)
    (hr : rid ≠ "") (hp : p ≠ "") :
    (guidMatch rid = false →
      generate_image ⟨some rid, some p, none, none⟩ env =
        .ok (.validationError "request_id must be a valid GUID", []) ∧
      httpCode (.validationError "request_id must be a valid GUID") = 400) ∧
    (guidMatch rid = true →
      ∃ r, generate_image ⟨some rid, some p, none, none⟩ env = .ok (r, []) ∧
        httpCode r ≠ 400) := by
  constructor
  · intro hg
    exact ⟨by simp [generate_image, hr, hp, hg], rfl⟩
  · intro hg
    by_cases hc : check_api_configuration env = []
    · exact ⟨.wouldGenerate rid p 512 512,
        by simp [generate_image, hr, hp, hg, hc], by simp [httpCode]⟩
    · exact ⟨.configMissing (check_api_configuration env) rid,
        by simp [generate_image, hr, hp, hg, hc], by simp [httpCode]⟩

/-- Witness for the amended C1 theorem at a concrete rejected request_id. -/
theorem C1_guid_validation_witness :
    generate_image ⟨some "not-a-guid", some "x", none, none⟩ ⟨some "key"⟩ =
      .ok (.validationError "request_id must be a valid GUID", []) :=
  ((C1_guid_validation "not-a-guid" "x" ⟨some "key"⟩ (by decide) (by decide)).1
    (by rfl)).1

/-- C2: against an API that never reports a terminal status, the poll loop
(which polls every `poll_interval = 2` time units) fails with `TimeoutError`,
stopping at elapsed time `poll_timeout + poll_interval = 122` — strictly
after the 120-unit ceiling, and at no earlier elapsed time — with no
cancellation action in the loop. -/
theorem C2_poller_timeout (api : Nat → StatusResponse)
    (hnt : ∀ t, ((api t).status).isTerminal = false) :
    poll_job api 0 = (.error .timeoutError, poll_timeout + poll_interval) ∧
    poll_timeout < poll_timeout + poll_interval := by
  have hs : ∀ t, (api t).status = .SUBMITTED := by
    intro t
    have h := hnt t
    cases hst : (api t).status <;>
      simp [hst, JobStatus.isTerminal] at h ⊢
  refine ⟨?_, by simp [poll_timeout, poll_interval]⟩
  exact poll_job_submitted_times_out api hs 61 0 (by simp [poll_timeout, poll_interval])

/-- Witness for C2 at the constantly `SUBMITTED` API. -/
theorem C2_poller_timeout_witness :
    poll_job (fun _ => ⟨.SUBMITTED, none, none⟩) 0 =
      (.error .timeoutError, 122) ∧ 120 < 122 :=
  C2_poller_timeout (fun _ => ⟨.SUBMITTED, none, none⟩) (fun _ => rfl)

/-- C3: on a `COMPLETED` first poll the loop returns the result of output
extraction, and output extraction maps a structured object to the value of
its image-url key, a bare string to itself, a non-empty sequence of strings
to its first element, and every other shape — an object without the key, an
empty sequence, an unrecognised shape, or a missing output — to
`OutputFormatError`. -/
theorem C3_output_extraction (api : Nat → StatusResponse)
    (hc : (api 0).status = .COMPLETED) :
    poll_job api 0 = (extract_output (api 0).output, 0) ∧
    (∀ url, extract_output (some (.obj (some url))) = .ok url) ∧
    (∀ s, extract_output (some (.str s)) = .ok s) ∧
    (∀ x xs, extract_output (some (.strList (x :: xs))) = .ok x) ∧
    extract_output (some (.strList [])) = .error .outputFormatError ∧
    extract_output (some (.obj none)) = .error .outputFormatError ∧
    extract_output (some .otherShape) = .error .outputFormatError ∧
    extract_output none = .error .outputFormatError := by
  refine ⟨?_, fun _ => rfl, fun _ => rfl, fun _ _ => rfl, rfl, rfl, rfl, rfl⟩
  rw [poll_job]
  simp [hc, poll_timeout]

/-- Witness for C3: a `COMPLETED` response with a bare string output yields
that string as the image reference. -/
theorem C3_output_extraction_witness :
    poll_job (fun _ => ⟨.COMPLETED, some (.str "data:image/png;base64,AA"), none⟩) 0 =
      (.ok "data:image/png;base64,AA", 0) :=
  (C3_output_extraction
    (fun _ => ⟨.COMPLETED, some (.str "data:image/png;base64,AA"), none⟩) rfl).1

/-- C4: a first poll reporting `FAILED` or `CANCELLED` makes the loop fail
with `GenerationFailedError`, and when the payload carries an error detail
the surfaced message contains that detail as a substring. -/
theorem C4_poller_failure (api : Nat → StatusResponse)
    (h : (api 0).status = .FAILED ∨ (api 0).status = .CANCELLED) :
    poll_job api 0 =
      (.error (.generationFailedError (failMessage (api 0).error)), 0) ∧
    ∀ d, (api 0).error = some d →
      ∃ pre post, failMessage (api 0).error = pre ++ d ++ post := by
  constructor
  · rw [poll_job]
    rcases h with h | h <;> simp [h, poll_timeout]
  · intro d hd
    refine ⟨"Image generation failed: ", "", ?_⟩
    simp [failMessage, hd]

/-- Witness for C4 at a `FAILED` response carrying the detail `"boom"`. -/
theorem C4_poller_failure_witness :
    poll_job (fun _ => ⟨.FAILED, none, some "boom"⟩) 0 =
      (.error (.generationFailedError "Image generation failed: boom"), 0) :=
  (C4_poller_failure (fun _ => ⟨.FAILED, none, some "boom"⟩) (Or.inl rfl)).1

/-- C5: behaviour of `/generate` on missing or empty `request_id` or
`prompt`.  A missing `prompt` raises `TypeError` before validation (the log
statement at line 187 slices the absent prompt), so that request gets a 500,
not the claimed 400 envelope; a missing or empty `request_id` with a present
prompt, and an empty prompt, do reach the 400 envelope. -/
theorem C5_missing_field_behaviour :
    generate_image
      ⟨some "d290f1ee-6c54-4b01-90e6-d701748f0851", none, none, none⟩
      ⟨some "key"⟩ = .error .typeError ∧
    generate_image ⟨none, some "a cat", none, none⟩ ⟨some "key"⟩ =
      .ok (.validationError "Missing request_id or prompt", []) ∧
    generate_image ⟨some "", some "a cat", none, none⟩ ⟨some "key"⟩ =
      .ok (.validationError "Missing request_id or prompt", []) ∧
    generate_image
      ⟨some "d290f1ee-6c54-4b01-90e6-d701748f0851", some "", none, none⟩
      ⟨some "key"⟩ =
      .ok (.validationError "Missing request_id or prompt", []) ∧
    httpCode (.validationError "Missing request_id or prompt") = 400 ∧
    bodyStatus (.validationError "Missing request_id or prompt") = "error" :=
  ⟨rfl, rfl, rfl, rfl, rfl, rfl⟩

/-- C6: a validated request (non-empty prompt, GUID-matching request_id)
made while `AZURE_STORAGE_KEY` is falsy in the environment is answered with
the 503 configuration envelope naming `AZURE_STORAGE_KEY`, with status
`"error"`, and generation is not reached. -/
theorem C6_config_missing (rid p : String) (w h : Option Int) (env : Env)
    (hr : rid ≠ "") (hp : p ≠ "") (hg : guidMatch rid = true)
    (he : truthyStr env.azureStorageKey = false) :
    generate_image ⟨some rid, some p, w, h⟩ env =
      .ok (.configMissing ["AZURE_STORAGE_KEY"] rid, []) ∧
    httpCode (.configMissing ["AZURE_STORAGE_KEY"] rid) = 503 ∧
    bodyStatus (.configMissing ["AZURE_STORAGE_KEY"] rid) = "error" := by
  refine ⟨?_, rfl, rfl⟩
  simp [generate_image, hr, hp, hg, check_api_configuration, he]

/-- Witness for C6 with the storage key unset. -/
theorem C6_config_missing_witness :
    generate_image
      ⟨some "d290f1ee-6c54-4b01-90e6-d701748f0851", some "a cat", none, none⟩
      ⟨none⟩ =
      .ok (.configMissing ["AZURE_STORAGE_KEY"]
        "d290f1ee-6c54-4b01-90e6-d701748f0851", []) :=
  (C6_config_missing "d290f1ee-6c54-4b01-90e6-d701748f0851" "a cat" none none
    ⟨none⟩ (by decide) (by decide) (by rfl) rfl).1

/-- C7: a Blob Uploader failure does not fail the overall request — the
response keeps status `"success"` and falls back to the locally stored image
URL, while an upload success uses the returned public URL. -/
theorem C7_upload_failure_nonfatal (rid localUrl msg : String) :
    finalize_response rid localUrl (.error (.uploadFailed msg)) =
      { status := "success", request_id := rid, image_url := localUrl } ∧
    ∀ blobUrl, finalize_response rid localUrl (.ok blobUrl) =
      { status := "success", request_id := rid, image_url := blobUrl } :=
  ⟨rfl, fun _ => rfl⟩

/-- C8: on a validated, configured request the response uses 512 for each
omitted dimension and the supplied integers when present. -/
theorem C8_dimension_defaults (rid p : String) (env : Env)
    (hr : rid ≠ "") (hp : p ≠ "") (hg : guidMatch rid = true)
    (he : truthyStr env.azureStorageKey = true) :
    generate_image ⟨some rid, some p, none, none⟩ env =
      .ok (.wouldGenerate rid p 512 512, []) ∧
    (∀ w h : Int, generate_image ⟨some rid, some p, some w, some h⟩ env =
      .ok (.wouldGenerate rid p w h, [])) ∧
    (∀ h : Int, generate_image ⟨some rid, some p, none, some h⟩ env =
      .ok (.wouldGenerate rid p 512 h, [])) ∧
    (∀ w : Int, generate_image ⟨some rid, some p, some w, none⟩ env =
      .ok (.wouldGenerate rid p w 512, [])) := by
  have hc : check_api_configuration env = [] := by
    simp [check_api_configuration, he]
  refine ⟨?_, fun w h => ?_, fun h => ?_, fun w => ?_⟩ <;>
    simp [generate_image, hr, hp, hg, hc]

/-- Witness for C8 at a concrete valid request. -/
theorem C8_dimension_defaults_witness :
    generate_image
      ⟨some "d290f1ee-6c54-4b01-90e6-d701748f0851", some "a cat", none, none⟩
      ⟨some "key"⟩ =
      .ok (.wouldGenerate "d290f1ee-6c54-4b01-90e6-d701748f0851" "a cat" 512 512, []) ∧
    generate_image
      ⟨some "d290f1ee-6c54-4b01-90e6-d701748f0851", some "a cat", some 64, some 128⟩
      ⟨some "key"⟩ =
      .ok (.wouldGenerate "d290f1ee-6c54-4b01-90e6-d701748f0851" "a cat" 64 128, []) :=
  ⟨(C8_dimension_defaults "d290f1ee-6c54-4b01-90e6-d701748f0851" "a cat"
      ⟨some "key"⟩ (by decide) (by decide) (by rfl) rfl).1,
   (C8_dimension_defaults "d290f1ee-6c54-4b01-90e6-d701748f0851" "a cat"
      ⟨some "key"⟩ (by decide) (by decide) (by rfl) rfl).2.1 64 128⟩

/-- C9: the `monitor_performance` wrapper counts a successful generation
whenever the handler returns without raising — even when the returned body is
the 400 validation envelope — and counts a failed generation exactly when the
handler raises, re-raising the exception. -/
theorem C9_monitor_counts (m : AppMetrics) (d : Nat) :
    (∀ r : GenerateResult × List String,
      (monitor_performance m d (.ok r)).2.successful_generations =
        m.successful_generations + 1 ∧
      (monitor_performance m d (.ok r)).2.failed_generations =
        m.failed_generations ∧
      (monitor_performance m d (.ok r)).1 = .ok r) ∧
    (httpCode (.validationError "Missing request_id or prompt") = 400 ∧
      (monitor_performance m d
        (.ok ((.validationError "Missing request_id or prompt" : GenerateResult),
          ([] : List String)))).2.successful_generations =
        m.successful_generations + 1) ∧
    (∀ e : PyError,
      (monitor_performance m d
        (.error e : Except PyError (GenerateResult × List String))).2.failed_generations =
        m.failed_generations + 1 ∧
      (monitor_performance m d
        (.error e : Except PyError (GenerateResult × List String))).2.successful_generations =
        m.successful_generations ∧
      (monitor_performance m d
        (.error e : Except PyError (GenerateResult × List String))).1 = .error e) := by
  refine ⟨fun r => ⟨rfl, rfl, rfl⟩, ⟨rfl, rfl⟩, fun e => ⟨?_, ?_, rfl⟩⟩ <;>
    simp [monitor_performance, record_error, record_response_time]

/-- C10 counterexample: with `AZURE_STORAGE_KEY` set in the environment but
equal to the empty string, the variable is set yet `/health` answers 503
`"degraded"` listing it as missing, because the code tests truthiness of
`os.getenv`, not presence. -/
theorem C10_health_empty_key :
    (Env.mk (some "")).azureStorageKey.isSome = true ∧
    health_check ⟨some ""⟩ =
      { code := 503, status := "degraded", api_configured := false,
        missing_config := ["AZURE_STORAGE_KEY"] } :=
  ⟨rfl, rfl⟩

/-- C10 amended: `/health` answers 200 `"healthy"` exactly when
`AZURE_STORAGE_KEY` holds a truthy (set and non-empty) value, and otherwise
503 `"degraded"` listing `AZURE_STORAGE_KEY` as the missing
configuration. -/
theorem C10_health_status (env : Env) :
    (truthyStr env.azureStorageKey = true →
      health_check env =
        { code := 200, status := "healthy", api_configured := true,
          missing_config := [] }) ∧
    (truthyStr env.azureStorageKey = false →
      health_check env =
        { code := 503, status := "degraded", api_configured := false,
          missing_config := ["AZURE_STORAGE_KEY"] }) := by
  constructor <;> intro h <;>
    simp [health_check, check_api_configuration, h]

/-- Witness for the amended C10 theorem at a set, non-empty key. -/
theorem C10_health_status_witness :
    health_check ⟨some "secret"⟩ =
      { code := 200, status := "healthy", api_configured := true,
        missing_config := [] } :=
  (C10_health_status ⟨some "secret"⟩).1 rfl
